import Mathlib

/-!
Shallow embedding of the agent-wrapper repository (helloworld, langgraph
currency agent, multiple_agents weather/host agents).

The Python code reshapes framework output into small status-envelope
dictionaries.  Dictionaries are embedded as association lists
`List (String × Value)` that record the literal key order of the Python
dict literals; dynamic values are embedded as the inductive `Value`.
Exceptions are embedded as `Except String`; `async` functions become pure
functions of the outcomes of their awaited calls.
-/

namespace AgentPractices

/-- A Python runtime value, as far as the embedded code needs it:
booleans, strings, `None`, lists and dictionaries. -/
inductive Value where
  | bool (b : Bool)
  | str (s : String)
  | vnone
  | vlist (l : List Value)
  | dict (fields : List (String × Value))
deriving BEq

/-- Python truthiness for the embedded values: `False`, `""`, `None`,
`[]` and the empty dict are falsy. -/
def Value.truthy : Value → Bool
  | .bool b => b
  | .str s => !(s == "")
  | .vnone => false
  | .vlist l => !l.isEmpty
  | .dict l => !l.isEmpty

/-- A status-envelope dictionary as produced by the agents. -/
abbrev Envelope := List (String × Value)

/-- The keys of an embedded dictionary, in insertion order. -/
def envelopeKeys (e : Envelope) : List String := e.map Prod.fst

/-- Whether a dictionary has exactly the three envelope fields
`is_task_complete`, `require_user_input`, `content`, in that order and
nothing else. -/
def isThreeFieldEnvelope (e : Envelope) : Bool :=
  envelopeKeys e == ["is_task_complete", "require_user_input", "content"]

/-- Whether the two status flags of an envelope are not both truthy
(`dict.get` semantics: a missing flag counts as `None`, hence falsy). -/
def flagsExclusive (e : Envelope) : Bool :=
  !(((e.lookup "is_task_complete").getD Value.vnone).truthy &&
    ((e.lookup "require_user_input").getD Value.vnone).truthy)

/-- `ResponseFormat.status` (src/multiple_agents/weather_agent/agent.py,
lines 17-20): the pydantic `Literal` of the three permitted statuses. -/
inductive Status where
  | input_required
  | completed
  | error
deriving DecidableEq, BEq

/-- `ResponseFormat` (src/multiple_agents/weather_agent/agent.py, lines
17-20): the structured agent response schema, also used by the currency
agent (`app.agent.models.ResponseFormat`). -/
structure ResponseFormat where
  status : Status
  message : String

/-- An element of a list-valued `AIMessage.content`: a dict with optional
`type` and `text` keys, or a non-dict object. -/
inductive ContentPart where
  | dictPart (type_ : Option String) (text : Option String)
  | otherPart

/-- The `content` attribute of an `AIMessage`: a string, a list of parts,
or some other object. -/
inductive MsgContent where
  | str (s : String)
  | parts (l : List ContentPart)
  | otherContent

/-- A langchain message as far as the embedded code inspects it: an
`AIMessage` carries a `content` payload and a `tool_calls` list, a
`ToolMessage` is only tested by `isinstance`, everything else is opaque. -/
inductive LCMessage where
  | ai (content : MsgContent) (tool_calls : List String)
  | toolMsg
  | otherMsg

end AgentPractices

namespace AgentPractices.CurrencyAgent

/-- The fixed fallback envelope returned by
`CurrencyAgent.get_agent_response` (src/langgraph/app/agent/__init__.py,
lines 78-85) when no structured response matches. -/
def retryEnvelope : Envelope :=
  [("is_task_complete", Value.bool false),
   ("require_user_input", Value.bool true),
   ("content",
    Value.str "We are unable to process your request at the moment. Please try again.")]

/-- `CurrencyAgent.get_agent_response` (src/langgraph/app/agent/__init__.py,
lines 53-85), as a function of the optional `structured_response` found in
the graph state. -/
def get_agent_response (structured_response : Option ResponseFormat) : Envelope :=
  match structured_response with
  | some r =>
    if r.status = Status.input_required then
      [("is_task_complete", Value.bool false),
       ("require_user_input", Value.bool true),
       ("content", Value.str r.message)]
    else if r.status = Status.error then
      [("is_task_complete", Value.bool false),
       ("require_user_input", Value.bool true),
       ("content", Value.str r.message)]
    else if r.status = Status.completed then
      [("is_task_complete", Value.bool true),
       ("require_user_input", Value.bool false),
       ("content", Value.str r.message)]
    else retryEnvelope
  | none => retryEnvelope

/-- The per-item body of the loop in `CurrencyAgent.stream`
(src/langgraph/app/agent/__init__.py, lines 33-50): the last message of
each streamed state either yields an interim envelope or nothing. -/
def stream_step (message : LCMessage) : Option Envelope :=
  match message with
  | .ai _ tool_calls =>
    if !tool_calls.isEmpty then
      some [("is_task_complete", Value.bool false),
            ("require_user_input", Value.bool false),
            ("content", Value.str "Looking up the exchange rates...")]
    else none
  | .toolMsg =>
    some [("is_task_complete", Value.bool false),
          ("require_user_input", Value.bool false),
          ("content", Value.str "Processing the exchange rates..")]
  | .otherMsg => none

/-- `CurrencyAgent.stream` (src/langgraph/app/agent/__init__.py, lines
29-51): the sequence of envelopes yielded for a given run, as a function
of the last message of each streamed state and of the final graph
state's structured response. -/
def stream (lastMessages : List LCMessage)
    (structured_response : Option ResponseFormat) : List Envelope :=
  lastMessages.filterMap stream_step ++ [get_agent_response structured_response]

end AgentPractices.CurrencyAgent

namespace AgentPractices.WeatherAgent

open AgentPractices

/-- The `values` attribute of the weather agent's graph state, as far as
`_extract_response` and `_fallback_to_message_content` inspect it
(src/multiple_agents/weather_agent/agent.py, lines 125-159). -/
structure StateValues where
  structured_response : Option ResponseFormat
  messages : List LCMessage

/-- `WeatherAgent.__init__` (src/multiple_agents/weather_agent/agent.py,
lines 45-66): raises `ValueError` on an empty tool list before the model
or graph is touched, otherwise stores the tools unchanged. -/
def init {α : Type} (mcp_tools : List α) : Except String (List α) :=
  if mcp_tools.isEmpty then
    Except.error "No MCP tools provided to WeatherAgent"
  else
    Except.ok mcp_tools

/-- `WeatherAgent._format_error_response`
(src/multiple_agents/weather_agent/agent.py, lines 214-227). -/
def format_error_response (message : String) : Envelope :=
  [("is_task_complete", Value.bool true),
   ("require_user_input", Value.bool false),
   ("content", Value.str message)]

/-- The fixed envelope returned by `_fallback_to_message_content` when no
suitable response is found (src/multiple_agents/weather_agent/agent.py,
lines 181-186). -/
def unableEnvelope : Envelope :=
  [("is_task_complete", Value.bool false),
   ("require_user_input", Value.bool true),
   ("content",
    Value.str "Unable to process request due to unexpected response format. Please try again.")]

/-- The list comprehension of `_fallback_to_message_content`
(src/multiple_agents/weather_agent/agent.py, lines 171-172): collect
`part['text']` of every dict part whose `type` is `'text'`; subscripting
a selected part that lacks a `text` key raises `KeyError`. -/
def collectTextParts : List ContentPart → Except String (List String)
  | [] => Except.ok []
  | ContentPart.dictPart type_ text :: rest =>
    if type_ = some "text" then
      match text with
      | some s => (collectTextParts rest).map (fun ts => s :: ts)
      | none => Except.error "KeyError: text"
    else collectTextParts rest
  | ContentPart.otherPart :: rest => collectTextParts rest

/-- `WeatherAgent._fallback_to_message_content`
(src/multiple_agents/weather_agent/agent.py, lines 148-186).  A raised
`KeyError` escapes to the caller as `Except.error`. -/
def fallback_to_message_content (state_values : StateValues) : Except String Envelope :=
  match state_values.messages.getLast? with
  | some (LCMessage.ai content _) =>
    match content with
    | MsgContent.str s =>
      if !(s == "") then
        Except.ok [("is_task_complete", Value.bool true),
                   ("require_user_input", Value.bool false),
                   ("content", Value.str s)]
      else Except.ok unableEnvelope
    | MsgContent.parts l =>
      match collectTextParts l with
      | Except.ok text_parts =>
        if !text_parts.isEmpty then
          Except.ok [("is_task_complete", Value.bool true),
                     ("require_user_input", Value.bool false),
                     ("content", Value.str (String.intercalate "\n" text_parts))]
        else Except.ok unableEnvelope
      | Except.error e => Except.error e
    | MsgContent.otherContent => Except.ok unableEnvelope
  | _ => Except.ok unableEnvelope

/-- `WeatherAgent._extract_response`
(src/multiple_agents/weather_agent/agent.py, lines 114-146), as a
function of the outcome of `get_state`: an exception there, or anywhere
in the body, is caught and formatted; a falsy `values` attribute is
reported as unavailable state. -/
def extract_response (get_state : Except String (Option StateValues)) : Envelope :=
  match get_state with
  | Except.error _ => format_error_response "Could not retrieve agent state"
  | Except.ok none => format_error_response "Agent state is unavailable"
  | Except.ok (some state_values) =>
    match state_values.structured_response with
    | some r =>
      [("is_task_complete", Value.bool (r.status == Status.completed)),
       ("require_user_input", Value.bool (r.status == Status.input_required)),
       ("content", Value.str r.message)]
    | none =>
      match fallback_to_message_content state_values with
      | Except.ok env => env
      | Except.error _ => format_error_response "Could not retrieve agent state"

/-- `WeatherAgent.ainvoke` (src/multiple_agents/weather_agent/agent.py,
lines 69-87), as a function of the run outcome: either the underlying
`agent_runnable.ainvoke` raises (the exception is caught and formatted),
or it succeeds and `_extract_response` is applied to the `get_state`
outcome. -/
def ainvoke (run : Except String (Except String (Option StateValues))) : Envelope :=
  match run with
  | Except.error e => format_error_response ("Error processing query: " ++ e)
  | Except.ok get_state => extract_response get_state

/-- The `data.get('chunk')` payload of a streamed event: an
`AIMessageChunk` with its `content`, or some other object. -/
inductive ChunkData where
  | aiMessageChunk (content : Value)
  | otherData

/-- A chunk from `astream_events` as far as `_process_stream_chunk`
inspects it: its `event` name, `data.get('name')` and
`data.get('chunk')`. -/
structure StreamChunk where
  event : Option String
  dataName : Option String
  dataChunk : Option ChunkData

/-- `WeatherAgent._process_stream_chunk`
(src/multiple_agents/weather_agent/agent.py, lines 188-212). -/
def process_stream_chunk (chunk : StreamChunk) : Option Envelope :=
  let content : Option Value :=
    if chunk.event == some "on_tool_start" then
      some (Value.str ("Using tool: " ++ (chunk.dataName.getD "a tool") ++ "..."))
    else if chunk.event == some "on_chat_model_stream" then
      match chunk.dataChunk with
      | some (ChunkData.aiMessageChunk c) => if c.truthy then some c else none
      | _ => none
    else none
  match content with
  | some c => if c.truthy then
      some [("is_task_complete", Value.bool false),
            ("require_user_input", Value.bool false),
            ("content", c)]
    else none
  | none => none

/-- The outcome of one `astream` run
(src/multiple_agents/weather_agent/agent.py, lines 89-112): either every
chunk is processed and the final state is extracted, or an exception
interrupts the stream after a prefix of chunks. -/
inductive StreamRun where
  | success (chunks : List StreamChunk) (get_state : Except String (Option StateValues))
  | failure (chunks : List StreamChunk) (errMsg : String)

/-- `WeatherAgent.astream` (src/multiple_agents/weather_agent/agent.py,
lines 89-112): the sequence of envelopes yielded for a run. -/
def astream : StreamRun → List Envelope
  | StreamRun.success chunks get_state =>
    chunks.filterMap process_stream_chunk ++ [extract_response get_state]
  | StreamRun.failure chunks e =>
    chunks.filterMap process_stream_chunk ++
      [format_error_response ("Streaming error: " ++ e)]

end AgentPractices.WeatherAgent

namespace AgentPractices

/-- An agent capability card, as far as the host agent reads it: its
advertised `name` and `description`. -/
structure AgentCard where
  name : String
  description : String

/-- `RemoteAgentConnections(agent_card=card, agent_url=address)`
(src/multiple_agents/host_agent/routing_agent.py, lines 103-105): the
connection handle stored in the registry, holding the resolved card and
the address it was resolved from. -/
structure RemoteAgentConnections where
  agent_card : AgentCard
  agent_url : String

/-- Python `d[k] = v` on a dict embedded as an association list: an
existing key keeps its position and gets the new value, a new key is
appended. -/
def dictInsert {α : Type} (d : List (String × α)) (k : String) (v : α) :
    List (String × α) :=
  if (d.lookup k).isSome then
    d.map (fun kv => if kv.1 == k then (k, v) else kv)
  else d ++ [(k, v)]

/-- One artifact of a `SendMessageResponse` result, as far as
`send_agent_message` reads it: its optional `parts` list, each part a
dict. -/
structure SMArtifact where
  parts : Option (List (List (String × Value)))

/-- The result of a successful `client.send_message` call: the dumped
`artifacts` list. -/
structure SendMessageResult where
  artifacts : List SMArtifact

end AgentPractices

namespace AgentPractices.RouterAgent

open AgentPractices

/-- `send_agent_message` (src/multiple_agents/host_agent/routing_agent.py,
lines 19-65), as a function of the registry, of a transport oracle giving
each connection's outcome (an exception or a response), and of the tool
arguments.  Returns the Python return value together with the list of
messages actually sent over the transport.  An empty `artifacts` list
makes `artifacts[-1]` raise `IndexError`; a missing `parts` makes the
comprehension raise `TypeError`; every exception is caught and wrapped
in the single-key error dict. -/
def send_agent_message
    (remote_agent_connections : List (String × RemoteAgentConnections))
    (transport : RemoteAgentConnections → Except String SendMessageResult)
    (agent_name : String) (text : String) :
    Value × List (RemoteAgentConnections × String) :=
  match remote_agent_connections.lookup agent_name with
  | none =>
    (Value.dict [("error", Value.str ("Agent " ++ agent_name ++ " not found."))], [])
  | some client =>
    match transport client with
    | Except.error e =>
      (Value.dict [("error",
        Value.str ("Failed to send message to agent " ++ agent_name ++ ": " ++ e))],
       [(client, text)])
    | Except.ok send_response =>
      match send_response.artifacts.getLast? with
      | none =>
        (Value.dict [("error",
          Value.str ("Failed to send message to agent " ++ agent_name ++
            ": list index out of range"))],
         [(client, text)])
      | some artifact =>
        match artifact.parts with
        | none =>
          (Value.dict [("error",
            Value.str ("Failed to send message to agent " ++ agent_name ++
              ": NoneType object is not iterable"))],
           [(client, text)])
        | some parts =>
          (Value.vlist (parts.map (fun p => (p.lookup "text").getD Value.vnone)),
           [(client, text)])

/-- The per-address step of the resolution loop in
`RouterAgent._async_init_components`
(src/multiple_agents/host_agent/routing_agent.py, lines 94-115): on
success the card's advertised `name` keys both the connection registry
and the local `cards` dict; any exception leaves both unchanged. -/
def init_step
    (card_resolver : String → Except String AgentCard)
    (acc : List (String × RemoteAgentConnections) × List (String × AgentCard))
    (address : String) :
    List (String × RemoteAgentConnections) × List (String × AgentCard) :=
  match card_resolver address with
  | Except.ok card =>
    (dictInsert acc.1 card.name (RemoteAgentConnections.mk card address),
     dictInsert acc.2 card.name card)
  | Except.error _ => acc

/-- `RouterAgent._async_init_components`
(src/multiple_agents/host_agent/routing_agent.py, lines 87-121): the
connection registry and the `cards` dict after resolving every address,
as a function of a resolver oracle. -/
def async_init_components
    (card_resolver : String → Except String AgentCard)
    (remote_agent_addresses : List String) :
    List (String × RemoteAgentConnections) × List (String × AgentCard) :=
  remote_agent_addresses.foldl (init_step card_resolver) ([], [])

/-- `RouterAgent.list_remote_agents`
(src/multiple_agents/host_agent/routing_agent.py, lines 145-158). -/
def list_remote_agents (cards : List (String × AgentCard)) : List Value :=
  if cards.isEmpty then []
  else
    cards.map (fun kv =>
      Value.dict [("name", Value.str kv.2.name),
                  ("description", Value.str kv.2.description)])

end AgentPractices.RouterAgent

namespace AgentPractices

/-- The task lifecycle state carried by a status update event
(src/multiple_agents/weather_agent/agent_executor.py). -/
inductive TaskState where
  | completed
  | input_required
  | working
deriving DecidableEq

/-- An event enqueued by `WeatherAgentExecutor.execute`: a
`TaskArtifactUpdateEvent` carrying the artifact text, or a
`TaskStatusUpdateEvent` carrying a state, an optional message and the
`final` flag. -/
inductive TaskEvent where
  | taskArtifactUpdate (text : Value) (lastChunk : Bool) (append : Bool)
  | taskStatusUpdate (state : TaskState) (message : Option Value) (final : Bool)

end AgentPractices

namespace AgentPractices.WeatherAgentExecutor

open AgentPractices

/-- The per-envelope body of the streaming loop in
`WeatherAgentExecutor.execute`
(src/multiple_agents/weather_agent/agent_executor.py, lines 51-105): the
events enqueued for one streamed envelope.  `event['k']` on a missing
key raises `KeyError`, embedded as `none`. -/
def handle_stream_event (event : Envelope) : Option (List TaskEvent) :=
  match event.lookup "is_task_complete" with
  | none => none
  | some itc =>
    if itc.truthy then
      match event.lookup "content" with
      | none => none
      | some c =>
        some [TaskEvent.taskArtifactUpdate c true false,
              TaskEvent.taskStatusUpdate TaskState.completed none true]
    else
      match event.lookup "require_user_input" with
      | none => none
      | some rui =>
        match event.lookup "content" with
        | none => none
        | some c =>
          if rui.truthy then
            some [TaskEvent.taskStatusUpdate TaskState.input_required (some c) true]
          else
            some [TaskEvent.taskStatusUpdate TaskState.working (some c) false]

/-- `WeatherAgentExecutor.cancel`
(src/multiple_agents/weather_agent/agent_executor.py, lines 107-111):
raises unconditionally, enqueuing nothing. -/
def cancel {γ ε : Type} (_context : γ) (event_queue : List ε) :
    Except String Unit × List ε :=
  (Except.error "cancel not supported", event_queue)

end AgentPractices.WeatherAgentExecutor

namespace AgentPractices.HelloWorldAgentExecutor

/-- `HelloWorldAgentExecutor.cancel` (src/helloworld/agent_executor.py,
lines 26-29): raises unconditionally, enqueuing nothing. -/
def cancel {γ ε : Type} (_context : γ) (event_queue : List ε) :
    Except String Unit × List ε :=
  (Except.error "cancel not supported", event_queue)

end AgentPractices.HelloWorldAgentExecutor

namespace AgentPractices

/-! ## Helper lemmas -/

theorem append_ne_empty_of_right (a b : String) (h : b.data ≠ []) :
    ¬ (a ++ b) = "" := by
  intro he
  apply h
  have hd : (a ++ b).data = a.data ++ b.data := by
    cases a; cases b; rfl
  rw [he] at hd
  exact (List.append_eq_nil.mp hd.symm).2

theorem usingTool_truthy (x : String) :
    (Value.str ("Using tool: " ++ x ++ "...")).truthy = true := by
  have h := append_ne_empty_of_right ("Using tool: " ++ x) "..." (by decide)
  simp [Value.truthy, h]

theorem threeField_format_error (m : String) :
    isThreeFieldEnvelope (WeatherAgent.format_error_response m) = true := rfl

theorem threeField_gar (sr : Option ResponseFormat) :
    isThreeFieldEnvelope (CurrencyAgent.get_agent_response sr) = true := by
  cases sr with
  | none => rfl
  | some r =>
    rcases r with ⟨s, m⟩
    cases s <;> rfl

theorem threeField_stream_step (m : LCMessage) (env : Envelope)
    (h : CurrencyAgent.stream_step m = some env) :
    isThreeFieldEnvelope env = true := by
  unfold CurrencyAgent.stream_step at h
  split at h
  · split at h
    · injection h with h
      subst h
      rfl
    · exact Option.noConfusion h
  · injection h with h
    subst h
    rfl
  · exact Option.noConfusion h

theorem threeField_fallback (sv : WeatherAgent.StateValues) (env : Envelope)
    (h : WeatherAgent.fallback_to_message_content sv = Except.ok env) :
    isThreeFieldEnvelope env = true := by
  unfold WeatherAgent.fallback_to_message_content at h
  repeat' split at h
  all_goals first
    | exact Except.noConfusion h
    | (injection h with h; subst h; rfl)

theorem threeField_extract (st : Except String (Option WeatherAgent.StateValues)) :
    isThreeFieldEnvelope (WeatherAgent.extract_response st) = true := by
  match st with
  | Except.error e => rfl
  | Except.ok none => rfl
  | Except.ok (some sv) =>
    rcases sv with ⟨sr, msgs⟩
    cases sr with
    | some r =>
      rcases r with ⟨s, m⟩
      cases s <;> rfl
    | none =>
      have hred : WeatherAgent.extract_response (Except.ok (some ⟨none, msgs⟩)) =
          (match WeatherAgent.fallback_to_message_content ⟨none, msgs⟩ with
           | Except.ok env => env
           | Except.error _ =>
             WeatherAgent.format_error_response "Could not retrieve agent state") := rfl
      rw [hred]
      split
      · rename_i env h
        exact threeField_fallback ⟨none, msgs⟩ env h
      · exact threeField_format_error _

theorem threeField_psc (chunk : WeatherAgent.StreamChunk) (env : Envelope)
    (h : WeatherAgent.process_stream_chunk chunk = some env) :
    isThreeFieldEnvelope env = true := by
  unfold WeatherAgent.process_stream_chunk at h
  dsimp only [] at h
  repeat' split at h
  all_goals first
    | exact Option.noConfusion h
    | (injection h with h; subst h; rfl)

theorem flags_format_error (m : String) :
    flagsExclusive (WeatherAgent.format_error_response m) = true := rfl

theorem flags_gar (sr : Option ResponseFormat) :
    flagsExclusive (CurrencyAgent.get_agent_response sr) = true := by
  cases sr with
  | none => rfl
  | some r =>
    rcases r with ⟨s, m⟩
    cases s <;> rfl

theorem flags_stream_step (m : LCMessage) (env : Envelope)
    (h : CurrencyAgent.stream_step m = some env) :
    flagsExclusive env = true := by
  unfold CurrencyAgent.stream_step at h
  repeat' split at h
  all_goals first
    | exact Option.noConfusion h
    | (injection h with h; subst h; rfl)

theorem flags_fallback (sv : WeatherAgent.StateValues) (env : Envelope)
    (h : WeatherAgent.fallback_to_message_content sv = Except.ok env) :
    flagsExclusive env = true := by
  unfold WeatherAgent.fallback_to_message_content at h
  repeat' split at h
  all_goals first
    | exact Except.noConfusion h
    | (injection h with h; subst h; rfl)

theorem flags_extract (st : Except String (Option WeatherAgent.StateValues)) :
    flagsExclusive (WeatherAgent.extract_response st) = true := by
  match st with
  | Except.error e => rfl
  | Except.ok none => rfl
  | Except.ok (some sv) =>
    rcases sv with ⟨sr, msgs⟩
    cases sr with
    | some r =>
      rcases r with ⟨s, m⟩
      cases s <;> rfl
    | none =>
      have hred : WeatherAgent.extract_response (Except.ok (some ⟨none, msgs⟩)) =
          (match WeatherAgent.fallback_to_message_content ⟨none, msgs⟩ with
           | Except.ok env => env
           | Except.error _ =>
             WeatherAgent.format_error_response "Could not retrieve agent state") := rfl
      rw [hred]
      split
      · rename_i env h
        exact flags_fallback ⟨none, msgs⟩ env h
      · exact flags_format_error _

theorem flags_psc (chunk : WeatherAgent.StreamChunk) (env : Envelope)
    (h : WeatherAgent.process_stream_chunk chunk = some env) :
    flagsExclusive env = true := by
  unfold WeatherAgent.process_stream_chunk at h
  dsimp only [] at h
  repeat' split at h
  all_goals first
    | exact Option.noConfusion h
    | (injection h with h; subst h; rfl)

theorem flags_ainvoke (run : Except String (Except String (Option WeatherAgent.StateValues))) :
    flagsExclusive (WeatherAgent.ainvoke run) = true := by
  cases run with
  | error e => exact flags_format_error _
  | ok st => exact flags_extract st

theorem lookup_map_replace_ne {α : Type} (d : List (String × α)) (k k2 : String) (v : α)
    (hne : ¬ k2 = k) :
    (d.map (fun kv => if kv.1 == k then (k, v) else kv)).lookup k2 = d.lookup k2 := by
  induction d with
  | nil => rfl
  | cons kv rest ih =>
    rcases kv with ⟨k1, v1⟩
    by_cases hk : (k1 == k) = true
    · have hkeq : k1 = k := eq_of_beq hk
      have h1 : (k2 == k) = false := beq_eq_false_iff_ne.mpr hne
      have h2 : (k2 == k1) = false := by
        rw [hkeq]
        exact h1
      simp only [List.map_cons, if_pos hk, List.lookup_cons, h1, h2]
      exact ih
    · simp only [List.map_cons, if_neg hk, List.lookup_cons]
      cases hv : (k2 == k1) with
      | true => rfl
      | false => exact ih

theorem lookup_map_replace_self {α : Type} (d : List (String × α)) (k : String) (v : α)
    (hs : (d.lookup k).isSome) :
    (d.map (fun kv => if kv.1 == k then (k, v) else kv)).lookup k = some v := by
  induction d with
  | nil => simp at hs
  | cons kv rest ih =>
    rcases kv with ⟨k1, v1⟩
    by_cases hk : (k1 == k) = true
    · simp only [List.map_cons, if_pos hk]
      exact List.lookup_cons_self
    · have hne : ¬ k1 = k := fun h => hk (beq_iff_eq.mpr h)
      have hk2 : (k == k1) = false := beq_eq_false_iff_ne.mpr (fun h => hne h.symm)
      simp only [List.lookup_cons, hk2] at hs
      simp only [List.map_cons, if_neg hk, List.lookup_cons, hk2]
      exact ih hs

theorem dictInsert_lookup {α : Type} (d : List (String × α)) (k k2 : String) (v : α) :
    (dictInsert d k v).lookup k2 = if k2 = k then some v else d.lookup k2 := by
  unfold dictInsert
  by_cases hk : k2 = k
  · subst hk
    rw [if_pos rfl]
    split
    · rename_i hs
      exact lookup_map_replace_self d k2 v hs
    · rename_i hs
      rw [List.lookup_append]
      rw [Option.not_isSome_iff_eq_none.mp hs]
      simp
  · rw [if_neg hk]
    split
    · exact lookup_map_replace_ne d k k2 v hk
    · rw [List.lookup_append]
      have h2 : ([(k, v)] : List (String × α)).lookup k2 = none := by
        simp only [List.lookup_cons, beq_eq_false_iff_ne.mpr hk]
        rfl
      rw [h2]
      cases d.lookup k2 <;> rfl

theorem dictInsert_forall {α : Type} (P : String × α → Prop)
    (d : List (String × α)) (k : String) (v : α)
    (hd : ∀ e ∈ d, P e) (hkv : P (k, v)) :
    ∀ e ∈ dictInsert d k v, P e := by
  intro e he
  unfold dictInsert at he
  split at he
  · rcases List.mem_map.mp he with ⟨kv, hmem, heq⟩
    by_cases hk : (kv.1 == k) = true
    · rw [if_pos hk] at heq
      rw [← heq]
      exact hkv
    · rw [if_neg hk] at heq
      rw [← heq]
      exact hd kv hmem
  · rcases List.mem_append.mp he with h | h
    · exact hd e h
    · rw [List.mem_singleton.mp h]
      exact hkv

theorem lookup_mem {α : Type} (d : List (String × α)) (k : String) (v : α)
    (h : d.lookup k = some v) : (k, v) ∈ d := by
  induction d with
  | nil => simp at h
  | cons kv rest ih =>
    rcases kv with ⟨k1, v1⟩
    rw [List.lookup_cons] at h
    cases hbe : (k == k1) with
    | true =>
      rw [hbe] at h
      injection h with h
      rw [eq_of_beq hbe, ← h]
      exact List.mem_cons_self _ _
    | false =>
      rw [hbe] at h
      exact List.mem_cons_of_mem _ (ih h)

theorem init_fold_keyed (card_resolver : String → Except String AgentCard)
    (addresses : List String)
    (acc : List (String × RemoteAgentConnections) × List (String × AgentCard))
    (hacc : ∀ e ∈ acc.1, e.2.agent_card.name = e.1) :
    ∀ e ∈ (addresses.foldl (RouterAgent.init_step card_resolver) acc).1,
      e.2.agent_card.name = e.1 := by
  induction addresses generalizing acc with
  | nil => exact hacc
  | cons a rest ih =>
    rw [List.foldl_cons]
    apply ih
    cases hres : card_resolver a with
    | ok card =>
      unfold RouterAgent.init_step
      rw [hres]
      exact dictInsert_forall _ acc.1 card.name _ hacc rfl
    | error e =>
      unfold RouterAgent.init_step
      rw [hres]
      exact hacc

theorem init_step_lookup_isSome
    (card_resolver : String → Except String AgentCard)
    (acc : List (String × RemoteAgentConnections) × List (String × AgentCard))
    (a k : String)
    (h : ((acc.1).lookup k).isSome) :
    (((RouterAgent.init_step card_resolver acc a).1).lookup k).isSome := by
  cases hres : card_resolver a with
  | ok card =>
    unfold RouterAgent.init_step
    rw [hres]
    have := dictInsert_lookup acc.1 card.name k (RemoteAgentConnections.mk card a)
    rw [this]
    split
    · rfl
    · exact h
  | error e =>
    unfold RouterAgent.init_step
    rw [hres]
    exact h

theorem init_fold_lookup_isSome
    (card_resolver : String → Except String AgentCard)
    (addresses : List String)
    (acc : List (String × RemoteAgentConnections) × List (String × AgentCard))
    (k : String)
    (h : ((acc.1).lookup k).isSome) :
    (((addresses.foldl (RouterAgent.init_step card_resolver) acc).1).lookup k).isSome := by
  induction addresses generalizing acc with
  | nil => exact h
  | cons a rest ih =>
    rw [List.foldl_cons]
    exact ih _ (init_step_lookup_isSome card_resolver acc a k h)

theorem init_fold_lookup_of_resolved
    (card_resolver : String → Except String AgentCard)
    (addresses : List String)
    (acc : List (String × RemoteAgentConnections) × List (String × AgentCard))
    (a : String) (card : AgentCard)
    (ha : a ∈ addresses) (hres : card_resolver a = Except.ok card) :
    (((addresses.foldl (RouterAgent.init_step card_resolver) acc).1).lookup
        card.name).isSome := by
  induction addresses generalizing acc with
  | nil => cases ha
  | cons x rest ih =>
    rw [List.foldl_cons]
    rcases List.mem_cons.mp ha with rfl | hmem
    · apply init_fold_lookup_isSome
      unfold RouterAgent.init_step
      rw [hres]
      have := dictInsert_lookup acc.1 card.name card.name
        (RemoteAgentConnections.mk card a)
      rw [this]
      rw [if_pos rfl]
      rfl
    · exact ih _ hmem

/-! ## Claim theorems -/

/-- C1: `CurrencyAgent.get_agent_response` maps a structured response with
status `completed` to the envelope with `is_task_complete = true` and
`require_user_input = false`, maps statuses `input_required` and `error`
both to the envelope with `is_task_complete = false` and
`require_user_input = true`, always carrying the structured message, and
maps an absent structured response to the fixed retry envelope. -/
theorem C1_get_agent_response_envelope :
    (∀ m : String,
      CurrencyAgent.get_agent_response (some ⟨Status.completed, m⟩) =
        [("is_task_complete", Value.bool true),
         ("require_user_input", Value.bool false),
         ("content", Value.str m)] ∧
      CurrencyAgent.get_agent_response (some ⟨Status.input_required, m⟩) =
        [("is_task_complete", Value.bool false),
         ("require_user_input", Value.bool true),
         ("content", Value.str m)] ∧
      CurrencyAgent.get_agent_response (some ⟨Status.error, m⟩) =
        [("is_task_complete", Value.bool false),
         ("require_user_input", Value.bool true),
         ("content", Value.str m)]) ∧
    CurrencyAgent.get_agent_response none =
      [("is_task_complete", Value.bool false),
       ("require_user_input", Value.bool true),
       ("content",
        Value.str "We are unable to process your request at the moment. Please try again.")] :=
  ⟨fun _ => ⟨rfl, rfl, rfl⟩, rfl⟩

/-- C9: constructing a `WeatherAgent` with an empty tool list raises
`ValueError` before anything is built; with a non-empty tool list it
succeeds and stores the tools unchanged. -/
theorem C9_weather_init_validation :
    ∀ (α : Type) (mcp_tools : List α),
      (mcp_tools = [] →
        WeatherAgent.init mcp_tools =
          Except.error "No MCP tools provided to WeatherAgent") ∧
      (mcp_tools ≠ [] → WeatherAgent.init mcp_tools = Except.ok mcp_tools) := by
  intro α mcp_tools
  constructor
  · rintro rfl
    rfl
  · intro h
    cases mcp_tools with
    | nil => exact absurd rfl h
    | cons a t => rfl

/-- Witness for C9 at a concrete empty and non-empty tool list. -/
theorem C9_weather_init_validation_witness :
    WeatherAgent.init ([] : List String) =
      Except.error "No MCP tools provided to WeatherAgent" ∧
    WeatherAgent.init ["get_forecast"] = Except.ok ["get_forecast"] :=
  ⟨(C9_weather_init_validation String []).1 rfl,
   (C9_weather_init_validation String ["get_forecast"]).2 (by simp)⟩

/-- C10: the `cancel` operation of both executors always raises
`cancel not supported` and leaves the event queue unchanged, for every
request context and queue. -/
theorem C10_cancel_always_raises :
    ∀ (γ ε : Type) (context : γ) (event_queue : List ε),
      HelloWorldAgentExecutor.cancel context event_queue =
        (Except.error "cancel not supported", event_queue) ∧
      WeatherAgentExecutor.cancel context event_queue =
        (Except.error "cancel not supported", event_queue) :=
  fun _ _ _ _ => ⟨rfl, rfl⟩

/-- C6: the streaming loop of `WeatherAgentExecutor.execute` turns a
three-field envelope with `is_task_complete` true into a final artifact
update followed by a final `completed` status update; an envelope with
`is_task_complete` false and `require_user_input` true into a single
final `input_required` status update carrying the content; and every
other envelope into a single non-final `working` status update carrying
the content. -/
theorem C6_executor_event_translation :
    ∀ (b : Bool) (c : Value),
      WeatherAgentExecutor.handle_stream_event
          [("is_task_complete", Value.bool true),
           ("require_user_input", Value.bool b),
           ("content", c)] =
        some [TaskEvent.taskArtifactUpdate c true false,
              TaskEvent.taskStatusUpdate TaskState.completed none true] ∧
      WeatherAgentExecutor.handle_stream_event
          [("is_task_complete", Value.bool false),
           ("require_user_input", Value.bool true),
           ("content", c)] =
        some [TaskEvent.taskStatusUpdate TaskState.input_required (some c) true] ∧
      WeatherAgentExecutor.handle_stream_event
          [("is_task_complete", Value.bool false),
           ("require_user_input", Value.bool false),
           ("content", c)] =
        some [TaskEvent.taskStatusUpdate TaskState.working (some c) false] := by
  intro b c
  refine ⟨?_, ?_, ?_⟩ <;>
    simp [WeatherAgentExecutor.handle_stream_event, List.lookup, Value.truthy]

/-- C4: `WeatherAgent._process_stream_chunk` is a pass-through filter on
the event name: `on_tool_start` always yields an envelope announcing the
tool name; `on_chat_model_stream` with a non-empty `AIMessageChunk`
yields an envelope carrying exactly the chunk content with both flags
false; any other event name, and `on_chat_model_stream` without truthy
`AIMessageChunk` content, is filtered out. -/
theorem C4_process_stream_chunk_filter :
    ∀ chunk : WeatherAgent.StreamChunk,
      (chunk.event = some "on_tool_start" →
        WeatherAgent.process_stream_chunk chunk =
          some [("is_task_complete", Value.bool false),
                ("require_user_input", Value.bool false),
                ("content",
                 Value.str ("Using tool: " ++ (chunk.dataName.getD "a tool") ++ "..."))]) ∧
      (∀ c : Value, chunk.event = some "on_chat_model_stream" →
        chunk.dataChunk = some (WeatherAgent.ChunkData.aiMessageChunk c) →
        c.truthy = true →
        WeatherAgent.process_stream_chunk chunk =
          some [("is_task_complete", Value.bool false),
                ("require_user_input", Value.bool false),
                ("content", c)]) ∧
      (chunk.event ≠ some "on_tool_start" →
        chunk.event ≠ some "on_chat_model_stream" →
        WeatherAgent.process_stream_chunk chunk = none) ∧
      (chunk.event = some "on_chat_model_stream" →
        (∀ c : Value,
          chunk.dataChunk = some (WeatherAgent.ChunkData.aiMessageChunk c) →
          c.truthy = false) →
        WeatherAgent.process_stream_chunk chunk = none) := by
  rintro ⟨ev, dn, dc⟩
  refine ⟨?_, ?_, ?_, ?_⟩
  · intro h
    subst h
    simp [WeatherAgent.process_stream_chunk, usingTool_truthy]
  · intro c h1 h2 h3
    subst h1
    subst h2
    simp [WeatherAgent.process_stream_chunk, h3]
  · intro h1 h2
    simp only [WeatherAgent.process_stream_chunk]
    simp [h1, h2]
  · intro h1 h2
    subst h1
    cases dc with
    | none => simp [WeatherAgent.process_stream_chunk]
    | some cd =>
      cases cd with
      | aiMessageChunk c =>
        simp [WeatherAgent.process_stream_chunk, h2 c rfl]
      | otherData => simp [WeatherAgent.process_stream_chunk]

/-- Witness for C4 at concrete chunks: a tool-start chunk, a model-stream
chunk with content, an unknown event, and an empty model-stream chunk. -/
theorem C4_process_stream_chunk_filter_witness :
    WeatherAgent.process_stream_chunk
        ⟨some "on_tool_start", some "get_forecast", none⟩ =
      some [("is_task_complete", Value.bool false),
            ("require_user_input", Value.bool false),
            ("content", Value.str "Using tool: get_forecast...")] ∧
    WeatherAgent.process_stream_chunk
        ⟨some "on_chat_model_stream", none,
         some (WeatherAgent.ChunkData.aiMessageChunk (Value.str "Sunny"))⟩ =
      some [("is_task_complete", Value.bool false),
            ("require_user_input", Value.bool false),
            ("content", Value.str "Sunny")] ∧
    WeatherAgent.process_stream_chunk ⟨some "on_chain_end", none, none⟩ = none ∧
    WeatherAgent.process_stream_chunk
        ⟨some "on_chat_model_stream", none,
         some (WeatherAgent.ChunkData.aiMessageChunk (Value.str ""))⟩ = none := by
  refine ⟨?_, ?_, ?_, ?_⟩
  · exact (C4_process_stream_chunk_filter
      ⟨some "on_tool_start", some "get_forecast", none⟩).1 rfl
  · exact (C4_process_stream_chunk_filter
      ⟨some "on_chat_model_stream", none,
       some (WeatherAgent.ChunkData.aiMessageChunk (Value.str "Sunny"))⟩).2.1
      (Value.str "Sunny") rfl rfl (by decide)
  · exact (C4_process_stream_chunk_filter
      ⟨some "on_chain_end", none, none⟩).2.2.1 (by simp) (by simp)
  · exact (C4_process_stream_chunk_filter
      ⟨some "on_chat_model_stream", none,
       some (WeatherAgent.ChunkData.aiMessageChunk (Value.str ""))⟩).2.2.2 rfl
      (by intro c h; injection h with h2; injection h2 with h3; rw [← h3]; decide)

/-- C3: every dictionary produced per streaming step by
`CurrencyAgent.stream`, `WeatherAgent.astream` and
`WeatherAgent._process_stream_chunk` has exactly the three fields
`is_task_complete`, `require_user_input` and `content`, and no others. -/
theorem C3_stream_envelopes_have_three_fields :
    (∀ (lastMessages : List LCMessage) (sr : Option ResponseFormat),
       ∀ env ∈ CurrencyAgent.stream lastMessages sr,
         isThreeFieldEnvelope env = true) ∧
    (∀ run : WeatherAgent.StreamRun,
       ∀ env ∈ WeatherAgent.astream run, isThreeFieldEnvelope env = true) ∧
    (∀ (chunk : WeatherAgent.StreamChunk) (env : Envelope),
       WeatherAgent.process_stream_chunk chunk = some env →
       isThreeFieldEnvelope env = true) := by
  refine ⟨?_, ?_, threeField_psc⟩
  · intro lastMessages sr env hmem
    unfold CurrencyAgent.stream at hmem
    rcases List.mem_append.mp hmem with hmem | hmem
    · rcases List.mem_filterMap.mp hmem with ⟨m, _, hstep⟩
      exact threeField_stream_step m env hstep
    · rw [List.mem_singleton.mp hmem]
      exact threeField_gar sr
  · intro run env hmem
    cases run with
    | success chunks st =>
      unfold WeatherAgent.astream at hmem
      rcases List.mem_append.mp hmem with hmem | hmem
      · rcases List.mem_filterMap.mp hmem with ⟨c, _, hc⟩
        exact threeField_psc c env hc
      · rw [List.mem_singleton.mp hmem]
        exact threeField_extract st
    | failure chunks e =>
      unfold WeatherAgent.astream at hmem
      rcases List.mem_append.mp hmem with hmem | hmem
      · rcases List.mem_filterMap.mp hmem with ⟨c, _, hc⟩
        exact threeField_psc c env hc
      · rw [List.mem_singleton.mp hmem]
        exact threeField_format_error _

/-- Witness for C3 at a concrete currency stream, a concrete failing
weather stream run, and a concrete processed chunk. -/
theorem C3_stream_envelopes_have_three_fields_witness :
    isThreeFieldEnvelope
      [("is_task_complete", Value.bool false),
       ("require_user_input", Value.bool false),
       ("content", Value.str "Processing the exchange rates..")] = true ∧
    isThreeFieldEnvelope
      (WeatherAgent.format_error_response "Streaming error: timeout") = true ∧
    isThreeFieldEnvelope
      [("is_task_complete", Value.bool false),
       ("require_user_input", Value.bool false),
       ("content", Value.str "Sunny")] = true := by
  refine ⟨?_, ?_, ?_⟩
  · exact C3_stream_envelopes_have_three_fields.1 [LCMessage.toolMsg] none
      [("is_task_complete", Value.bool false),
       ("require_user_input", Value.bool false),
       ("content", Value.str "Processing the exchange rates..")]
      (List.mem_cons_self _ _)
  · exact C3_stream_envelopes_have_three_fields.2.1
      (WeatherAgent.StreamRun.failure [] "timeout")
      (WeatherAgent.format_error_response "Streaming error: timeout")
      (List.mem_cons_self _ _)
  · exact C3_stream_envelopes_have_three_fields.2.2
      ⟨some "on_chat_model_stream", none,
       some (WeatherAgent.ChunkData.aiMessageChunk (Value.str "Sunny"))⟩
      [("is_task_complete", Value.bool false),
       ("require_user_input", Value.bool false),
       ("content", Value.str "Sunny")] rfl

/-- C8: in every status envelope produced by any operation of
`CurrencyAgent` (`stream`, `get_agent_response`) or `WeatherAgent`
(`ainvoke`, `astream`, `_extract_response`,
`_fallback_to_message_content`, `_format_error_response`,
`_process_stream_chunk`), `is_task_complete` and `require_user_input`
are never both true. -/
theorem C8_flags_never_both_true :
    (∀ sr : Option ResponseFormat,
       flagsExclusive (CurrencyAgent.get_agent_response sr) = true) ∧
    (∀ (lastMessages : List LCMessage) (sr : Option ResponseFormat),
       ∀ env ∈ CurrencyAgent.stream lastMessages sr, flagsExclusive env = true) ∧
    (∀ run : Except String (Except String (Option WeatherAgent.StateValues)),
       flagsExclusive (WeatherAgent.ainvoke run) = true) ∧
    (∀ run : WeatherAgent.StreamRun,
       ∀ env ∈ WeatherAgent.astream run, flagsExclusive env = true) ∧
    (∀ st : Except String (Option WeatherAgent.StateValues),
       flagsExclusive (WeatherAgent.extract_response st) = true) ∧
    (∀ (sv : WeatherAgent.StateValues) (env : Envelope),
       WeatherAgent.fallback_to_message_content sv = Except.ok env →
       flagsExclusive env = true) ∧
    (∀ m : String, flagsExclusive (WeatherAgent.format_error_response m) = true) ∧
    (∀ (chunk : WeatherAgent.StreamChunk) (env : Envelope),
       WeatherAgent.process_stream_chunk chunk = some env →
       flagsExclusive env = true) := by
  refine ⟨flags_gar, ?_, flags_ainvoke, ?_, flags_extract, flags_fallback,
    flags_format_error, flags_psc⟩
  · intro lastMessages sr env hmem
    unfold CurrencyAgent.stream at hmem
    rcases List.mem_append.mp hmem with hmem | hmem
    · rcases List.mem_filterMap.mp hmem with ⟨m, _, hstep⟩
      exact flags_stream_step m env hstep
    · rw [List.mem_singleton.mp hmem]
      exact flags_gar sr
  · intro run env hmem
    cases run with
    | success chunks st =>
      unfold WeatherAgent.astream at hmem
      rcases List.mem_append.mp hmem with hmem | hmem
      · rcases List.mem_filterMap.mp hmem with ⟨c, _, hc⟩
        exact flags_psc c env hc
      · rw [List.mem_singleton.mp hmem]
        exact flags_extract st
    | failure chunks e =>
      unfold WeatherAgent.astream at hmem
      rcases List.mem_append.mp hmem with hmem | hmem
      · rcases List.mem_filterMap.mp hmem with ⟨c, _, hc⟩
        exact flags_psc c env hc
      · rw [List.mem_singleton.mp hmem]
        exact flags_format_error _

/-- Witness for C8 at a concrete streamed envelope, a concrete fallback
state and a concrete processed chunk. -/
theorem C8_flags_never_both_true_witness :
    flagsExclusive
      [("is_task_complete", Value.bool false),
       ("require_user_input", Value.bool false),
       ("content", Value.str "Looking up the exchange rates...")] = true ∧
    flagsExclusive
      [("is_task_complete", Value.bool true),
       ("require_user_input", Value.bool false),
       ("content", Value.str "It is sunny today.")] = true ∧
    flagsExclusive
      [("is_task_complete", Value.bool false),
       ("require_user_input", Value.bool false),
       ("content", Value.str "It")] = true := by
  refine ⟨?_, ?_, ?_⟩
  · exact C8_flags_never_both_true.2.1 [LCMessage.ai MsgContent.otherContent ["t1"]] none
      [("is_task_complete", Value.bool false),
       ("require_user_input", Value.bool false),
       ("content", Value.str "Looking up the exchange rates...")]
      (List.mem_cons_self _ _)
  · exact C8_flags_never_both_true.2.2.2.2.2.1
      ⟨none, [LCMessage.ai (MsgContent.str "It is sunny today.") []]⟩
      [("is_task_complete", Value.bool true),
       ("require_user_input", Value.bool false),
       ("content", Value.str "It is sunny today.")] rfl
  · exact C8_flags_never_both_true.2.2.2.2.2.2.2
      ⟨some "on_chat_model_stream", none,
       some (WeatherAgent.ChunkData.aiMessageChunk (Value.str "It"))⟩
      [("is_task_complete", Value.bool false),
       ("require_user_input", Value.bool false),
       ("content", Value.str "It")] rfl

/-- C2 counterexample: at a concrete failing remote delegation (the
transport raises `Connection refused`), `send_agent_message` returns the
single-key dict `{'error': ...}`, which is not the three-field status
envelope, so the routing tool does not return its error in the same
envelope shape. -/
theorem C2_counterexample_send_error_shape :
    (RouterAgent.send_agent_message
        [("Weather Agent",
          ⟨⟨"Weather Agent", "weather helper"⟩, "http://localhost:10001"⟩)]
        (fun _ => Except.error "Connection refused") "Weather Agent"
        "weather in hanoi").1 =
      Value.dict [("error",
        Value.str "Failed to send message to agent Weather Agent: Connection refused")] ∧
    isThreeFieldEnvelope
      [("error",
        Value.str "Failed to send message to agent Weather Agent: Connection refused")] =
      false :=
  ⟨rfl, rfl⟩

/-- C2 (amended): every exception raised while a query is processed is
caught broadly; `WeatherAgent.ainvoke` and `WeatherAgent.astream` never
propagate it and return/yield the three-field status envelope carrying an
error message string, while the routing tool `send_agent_message`
catches its exception too but returns it as a single-key `{'error': ...}`
dictionary rather than the three-field envelope. -/
theorem C2_exceptions_caught_broadly :
    (∀ e : String,
       WeatherAgent.ainvoke (Except.error e) =
         WeatherAgent.format_error_response ("Error processing query: " ++ e) ∧
       isThreeFieldEnvelope (WeatherAgent.ainvoke (Except.error e)) = true) ∧
    (∀ (chunks : List WeatherAgent.StreamChunk) (e : String),
       WeatherAgent.astream (WeatherAgent.StreamRun.failure chunks e) =
         chunks.filterMap WeatherAgent.process_stream_chunk ++
           [WeatherAgent.format_error_response ("Streaming error: " ++ e)] ∧
       isThreeFieldEnvelope
         (WeatherAgent.format_error_response ("Streaming error: " ++ e)) = true) ∧
    (∀ (name text e : String) (client : RemoteAgentConnections),
       RouterAgent.send_agent_message [(name, client)]
           (fun _ => Except.error e) name text =
         (Value.dict [("error",
            Value.str ("Failed to send message to agent " ++ name ++ ": " ++ e))],
          [(client, text)])) := by
  refine ⟨fun e => ⟨rfl, threeField_format_error _⟩,
    fun chunks e => ⟨rfl, threeField_format_error _⟩, ?_⟩
  intro name text e client
  unfold RouterAgent.send_agent_message
  rw [List.lookup_cons_self]

/-- C5: `send_agent_message` resolves the target by registry lookup: a
missing agent name returns the not-found error dict and sends nothing
over the transport; a present name forwards the message to that agent's
connection and returns the `text` entries of the parts of the last
artifact of the response. -/
theorem C5_send_agent_message_routing :
    ∀ (registry : List (String × RemoteAgentConnections))
      (transport : RemoteAgentConnections → Except String SendMessageResult)
      (agent_name text : String),
      (registry.lookup agent_name = none →
        RouterAgent.send_agent_message registry transport agent_name text =
          (Value.dict [("error",
             Value.str ("Agent " ++ agent_name ++ " not found."))], [])) ∧
      (∀ (client : RemoteAgentConnections) (res : SendMessageResult)
         (artifact : SMArtifact) (partsList : List (List (String × Value))),
        registry.lookup agent_name = some client →
        transport client = Except.ok res →
        res.artifacts.getLast? = some artifact →
        artifact.parts = some partsList →
        RouterAgent.send_agent_message registry transport agent_name text =
          (Value.vlist
             (partsList.map (fun p => (p.lookup "text").getD Value.vnone)),
           [(client, text)])) := by
  intro registry transport agent_name text
  constructor
  · intro h
    unfold RouterAgent.send_agent_message
    rw [h]
  · intro client res artifact partsList h1 h2 h3 h4
    unfold RouterAgent.send_agent_message
    simp only [h1, h2, h3, h4]

/-- Witness for C5: a concrete missing agent, and a concrete successful
delegation whose last artifact holds one text part. -/
theorem C5_send_agent_message_routing_witness :
    RouterAgent.send_agent_message []
        (fun _ => Except.error "unused") "Airbnb Agent" "find a room" =
      (Value.dict [("error", Value.str "Agent Airbnb Agent not found.")], []) ∧
    RouterAgent.send_agent_message
        [("Weather Agent",
          ⟨⟨"Weather Agent", "weather helper"⟩, "http://localhost:10001"⟩)]
        (fun _ => Except.ok
          ⟨[⟨some [[("type", Value.str "text"),
                    ("text", Value.str "Sunny, 24C")]]⟩]⟩)
        "Weather Agent" "weather in hanoi" =
      (Value.vlist [Value.str "Sunny, 24C"],
       [(⟨⟨"Weather Agent", "weather helper"⟩, "http://localhost:10001"⟩,
         "weather in hanoi")]) := by
  constructor
  · exact (C5_send_agent_message_routing [] (fun _ => Except.error "unused")
      "Airbnb Agent" "find a room").1 rfl
  · exact (C5_send_agent_message_routing
      [("Weather Agent",
        ⟨⟨"Weather Agent", "weather helper"⟩, "http://localhost:10001"⟩)]
      (fun _ => Except.ok
        ⟨[⟨some [[("type", Value.str "text"),
                  ("text", Value.str "Sunny, 24C")]]⟩]⟩)
      "Weather Agent" "weather in hanoi").2
      ⟨⟨"Weather Agent", "weather helper"⟩, "http://localhost:10001"⟩
      ⟨[⟨some [[("type", Value.str "text"),
                ("text", Value.str "Sunny, 24C")]]⟩]⟩
      ⟨some [[("type", Value.str "text"), ("text", Value.str "Sunny, 24C")]]⟩
      [[("type", Value.str "text"), ("text", Value.str "Sunny, 24C")]]
      rfl rfl rfl rfl

/-- C7: after initialization the remote-agent registry maps each
successfully resolved card's advertised name (not the address) to its
connection handle, and `list_remote_agents` returns `[]` when given no
cards and otherwise exactly one name/description dictionary per card,
taken from the card's advertised fields. -/
theorem C7_router_registry_and_listing :
    (∀ (card_resolver : String → Except String AgentCard)
       (remote_agent_addresses : List String),
      (∀ e ∈ (RouterAgent.async_init_components card_resolver
                remote_agent_addresses).1,
         e.2.agent_card.name = e.1) ∧
      (∀ a ∈ remote_agent_addresses, ∀ card : AgentCard,
         card_resolver a = Except.ok card →
         ∃ conn : RemoteAgentConnections,
           ((RouterAgent.async_init_components card_resolver
               remote_agent_addresses).1).lookup card.name = some conn ∧
             conn.agent_card.name = card.name)) ∧
    RouterAgent.list_remote_agents [] = [] ∧
    (∀ cards : List (String × AgentCard),
       RouterAgent.list_remote_agents cards =
         cards.map (fun kv =>
           Value.dict [("name", Value.str kv.2.name),
                       ("description", Value.str kv.2.description)])) := by
  refine ⟨?_, rfl, ?_⟩
  · intro card_resolver addresses
    constructor
    · exact init_fold_keyed card_resolver addresses ([], [])
        (by intro e he; cases he)
    · intro a ha card hres
      have hs := init_fold_lookup_of_resolved card_resolver addresses ([], [])
        a card ha hres
      rcases Option.isSome_iff_exists.mp hs with ⟨conn, hconn⟩
      refine ⟨conn, hconn, ?_⟩
      exact init_fold_keyed card_resolver addresses ([], [])
        (by intro e he; cases he) (card.name, conn) (lookup_mem _ _ _ hconn)
  · intro cards
    cases cards with
    | nil => rfl
    | cons c cs => rfl

/-- Witness for C7: one address resolves to a weather card, the other
fails; the registry is keyed by the card name, and a concrete card dict
is listed. -/
theorem C7_router_registry_and_listing_witness :
    (∃ conn : RemoteAgentConnections,
       ((RouterAgent.async_init_components
           (fun address =>
             if address == "http://localhost:10001" then
               Except.ok ⟨"Weather Agent", "weather helper"⟩
             else Except.error "connection refused")
           ["http://localhost:10001", "http://localhost:10002"]).1).lookup
           "Weather Agent" = some conn ∧
         conn.agent_card.name = "Weather Agent") ∧
    RouterAgent.list_remote_agents
        [("Weather Agent", ⟨"Weather Agent", "weather helper"⟩)] =
      [Value.dict [("name", Value.str "Weather Agent"),
                   ("description", Value.str "weather helper")]] := by
  constructor
  · exact (C7_router_registry_and_listing.1
      (fun address =>
        if address == "http://localhost:10001" then
          Except.ok ⟨"Weather Agent", "weather helper"⟩
        else Except.error "connection refused")
      ["http://localhost:10001", "http://localhost:10002"]).2
      "http://localhost:10001" (List.mem_cons_self _ _)
      ⟨"Weather Agent", "weather helper"⟩ rfl
  · exact C7_router_registry_and_listing.2.2
      [("Weather Agent", ⟨"Weather Agent", "weather helper"⟩)]

end AgentPractices
